import Mathlib

/-!
Verification development for the two action-plugin adapters of this
repository: the resend email adapter (ext/plugins/resend/run.py) and the
tinyfish web-automation adapter (ext/plugins/tinyfish/run.py).

The scripts are shallowly embedded: JSON values become the inductive
`JValue`; Python string builtins are re-implemented structurally over
`String.data` (so everything evaluates by `rfl` and `decide`);
`json.loads` is an oracle parameter of type `Decoder` (its `Except.error`
carries the JSONDecodeError text); the environment is a lookup function;
the single outbound HTTP call is an oracle `NetOutcome`.  A run produces a
`ProcOutcome`: one stdout JSON line (exit 0), one stderr diagnostic line
written by `fail` (exit 1), or an uncaught Python exception (`crash`,
which CPython turns into a multi-line traceback on stderr and exit 1).
-/

/-- A JSON value as produced by Python's json.loads: None, bool, number
(modeled as Int; the adapters never compute with numbers), str, list, dict
(an association list in insertion order, keys unique). -/
inductive JValue where
  | null
  | bool (b : Bool)
  | num (n : Int)
  | str (s : String)
  | arr (items : List JValue)
  | obj (fields : List (String × JValue))

/-- Python truthiness of a JSON value: None, False, 0, "", [] and () are falsy. -/
def pyTruthy : JValue → Bool
  | JValue.null => false
  | JValue.bool b => b
  | JValue.num n => n != 0
  | JValue.str s => s != ""
  | JValue.arr items => !items.isEmpty
  | JValue.obj fields => !fields.isEmpty

/-- Is the value a Python dict (isinstance(v, dict))? -/
def JValue.isObj : JValue → Bool
  | JValue.obj _ => true
  | _ => false

/-- Whitespace characters stripped by Python str.strip / str.split. -/
def pyIsSpace (c : Char) : Bool :=
  c == ' ' || c == '\t' || c == '\n' || c == '\r' || c == Char.ofNat 11 || c == Char.ofNat 12

/-- Python str.strip(): drop leading and trailing whitespace. -/
def pyStrip (s : String) : String :=
  String.mk (((s.data.dropWhile pyIsSpace).reverse.dropWhile pyIsSpace).reverse)

/-- Number of characters, Python len() on str. -/
def pyLen (s : String) : Nat := s.data.length

/-- Python s[:n] slicing (character granularity). -/
def takeChars (s : String) (n : Nat) : String := String.mk (s.data.take n)

/-- Python str.join. -/
def pyJoin (sep : String) : List String → String
  | [] => ""
  | [x] => x
  | x :: xs => x ++ sep ++ pyJoin sep xs

def pySplitCharAux (sep : Char) : List Char → List Char → List String
  | [], acc => [String.mk acc.reverse]
  | c :: cs, acc =>
    if c == sep then String.mk acc.reverse :: pySplitCharAux sep cs []
    else pySplitCharAux sep cs (c :: acc)

/-- Python str.split(sep) for a one-character separator (keeps empty pieces). -/
def pySplitChar (s : String) (sep : Char) : List String := pySplitCharAux sep s.data []

def pySplitWsAux : List Char → List Char → List String
  | [], acc => if acc.isEmpty then [] else [String.mk acc.reverse]
  | c :: cs, acc =>
    if pyIsSpace c then
      if acc.isEmpty then pySplitWsAux cs [] else String.mk acc.reverse :: pySplitWsAux cs []
    else pySplitWsAux cs (c :: acc)

/-- Python str.split() with no argument: split on whitespace runs, dropping empties. -/
def pySplitWs (s : String) : List String := pySplitWsAux s.data []

/-- Python str.lower() (ASCII range; the adapters only compare ASCII sentinels). -/
def pyCharLower (c : Char) : Char :=
  if 65 ≤ c.toNat ∧ c.toNat ≤ 90 then Char.ofNat (c.toNat + 32) else c

def pyLower (s : String) : String := String.mk (s.data.map pyCharLower)

def startsWithChars : List Char → List Char → Bool
  | [], _ => true
  | _ :: _, [] => false
  | a :: as, b :: bs => a == b && startsWithChars as bs

def strContainsAux (needle : List Char) : List Char → Bool
  | [] => startsWithChars needle []
  | c :: cs => startsWithChars needle (c :: cs) || strContainsAux needle cs

/-- Python substring test: needle in hay. -/
def strContains (hay needle : String) : Bool := strContainsAux needle.data hay.data

/-- Python s.rstrip(c) for a one-character argument. -/
def pyRstrip (s : String) (c : Char) : String :=
  String.mk ((s.data.reverse.dropWhile (fun x => x == c)).reverse)

/-- Python truthy-or on strings: a or b. -/
def strOr (a b : String) : String := if a = "" then b else a

def singleQuote : String := String.mk [Char.ofNat 39]

mutual
/-- Python repr() of a JSON value, used by str() on containers. -/
def pyRepr : JValue → String
  | JValue.null => "None"
  | JValue.bool true => "True"
  | JValue.bool false => "False"
  | JValue.num n => toString n
  | JValue.str s => singleQuote ++ s ++ singleQuote
  | JValue.arr items => "[" ++ pyReprItems items ++ "]"
  | JValue.obj fields => "\x7b" ++ pyReprFields fields ++ "\x7d"
def pyReprItems : List JValue → String
  | [] => ""
  | [v] => pyRepr v
  | v :: vs => pyRepr v ++ ", " ++ pyReprItems vs
def pyReprFields : List (String × JValue) → String
  | [] => ""
  | [(k, v)] => singleQuote ++ k ++ singleQuote ++ ": " ++ pyRepr v
  | (k, v) :: fs => singleQuote ++ k ++ singleQuote ++ ": " ++ pyRepr v ++ ", " ++ pyReprFields fs
end

/-- Python str() of a JSON value: a str is itself, containers use repr of parts. -/
def pyStr : JValue → String
  | JValue.str s => s
  | v => pyRepr v

def hexDigitChar (n : Nat) : Char :=
  if n < 10 then Char.ofNat (48 + n) else Char.ofNat (87 + n)

def hex4 (n : Nat) : String :=
  String.mk [hexDigitChar (n / 4096 % 16), hexDigitChar (n / 256 % 16),
             hexDigitChar (n / 16 % 16), hexDigitChar (n % 16)]

/-- One character escaped as by json.dumps with its default ensure_ascii=True. -/
def jsonEscapeChar (c : Char) : String :=
  if c = '"' then "\\\""
  else if c = '\\' then "\\\\"
  else if c = '\n' then "\\n"
  else if c = '\t' then "\\t"
  else if c = '\r' then "\\r"
  else if c = Char.ofNat 8 then "\\b"
  else if c = Char.ofNat 12 then "\\f"
  else if c.toNat < 32 then "\\u" ++ hex4 c.toNat
  else if c.toNat < 128 then String.mk [c]
  else if c.toNat < 65536 then "\\u" ++ hex4 c.toNat
  else "\\u" ++ hex4 (55296 + (c.toNat - 65536) / 1024) ++ "\\u" ++ hex4 (56320 + (c.toNat - 65536) % 1024)

def jsonQuote (s : String) : String :=
  "\"" ++ String.join (s.data.map jsonEscapeChar) ++ "\""

mutual
/-- json.dumps with Python's defaults: separators (", ", ": "), insertion
order of dict keys, ensure_ascii escaping. -/
def pyJsonDumps : JValue → String
  | JValue.null => "null"
  | JValue.bool true => "true"
  | JValue.bool false => "false"
  | JValue.num n => toString n
  | JValue.str s => jsonQuote s
  | JValue.arr items => "[" ++ pyJsonDumpsItems items ++ "]"
  | JValue.obj fields => "\x7b" ++ pyJsonDumpsFields fields ++ "\x7d"
def pyJsonDumpsItems : List JValue → String
  | [] => ""
  | [v] => pyJsonDumps v
  | v :: vs => pyJsonDumps v ++ ", " ++ pyJsonDumpsItems vs
def pyJsonDumpsFields : List (String × JValue) → String
  | [] => ""
  | [(k, v)] => jsonQuote k ++ ": " ++ pyJsonDumps v
  | (k, v) :: fs => jsonQuote k ++ ": " ++ pyJsonDumps v ++ ", " ++ pyJsonDumpsFields fs
end

/-- json.loads as an oracle: ok is the parsed value, error carries the
JSONDecodeError text. -/
def Decoder : Type := String → Except String JValue

/-- os.environ.get. -/
def Env : Type := String → Option String

/-- The outcome of the single urllib.request.urlopen call: a body delivered
normally with its status, an urllib.error.HTTPError with its code and body,
or any other exception (transport failure) with its text. -/
inductive NetOutcome where
  | response (status : Nat) (body : String)
  | httpError (code : Nat) (body : String)
  | transportError (text : String)

/-- Terminal outcome of one adapter process: the single stdout JSON line
(exit 0), the single stderr line written by fail() (exit 1), or an uncaught
Python exception (traceback on stderr, exit 1). -/
inductive ProcOutcome where
  | success (stdoutLine : String)
  | failure (stderrLine : String)
  | crash (exception : String)
deriving DecidableEq

/-- Process exit code of an outcome (CPython exits 1 on an uncaught exception). -/
def exitCode : ProcOutcome → Nat
  | ProcOutcome.success _ => 0
  | _ => 1

/-- An early exit taken inside main before the HTTP call: a return fail(msg),
or an uncaught exception. -/
inductive Halt where
  | failure (message : String)
  | crash (exception : String)

/-- Render an early exit: fail() writes message.strip() to stderr and returns 1. -/
def emitHalt : Halt → ProcOutcome
  | Halt.failure m => ProcOutcome.failure (pyStrip m)
  | Halt.crash m => ProcOutcome.crash m

/-- Ordered-key lookup shared by both adapters' map_lookup helpers:
for key in keys: if key in values: return values[key]. -/
def lookupFirstKey (fs : List (String × JValue)) : List String → Option JValue
  | [] => none
  | k :: rest =>
    match fs.lookup k with
    | some v => some v
    | none => lookupFirstKey fs rest

namespace Resend

/-- str_or_empty(value): None (missing key or JSON null) gives "", anything
else gives str(value).strip(). -/
def str_or_empty : Option JValue → String
  | none => ""
  | some JValue.null => ""
  | some v => pyStrip (pyStr v)

/-- normalize_recipients(value): None gives [], a string is split on commas
with segments stripped and empties dropped, a list has each element
string-coerced with empties dropped, any other type gives []. -/
def normalize_recipients : Option JValue → List String
  | none => []
  | some JValue.null => []
  | some (JValue.str s) => ((pySplitChar s ',').map pyStrip).filter (fun t => t ≠ "")
  | some (JValue.arr items) =>
    (items.map (fun item => str_or_empty (some item))).filter (fun t => t ≠ "")
  | some _ => []

/-- map_lookup(values, *keys): None unless values is a dict; else the value
of the first present key. -/
def map_lookup (values : JValue) (keys : List String) : Option JValue :=
  match values with
  | JValue.obj fs => lookupFirstKey fs keys
  | _ => none

/-- One probe of parse_message: a key's value yields a message when it is a
non-blank string, or a dict whose "message" field is a non-blank string. -/
def probe_value : Option JValue → Option String
  | some (JValue.str s) => if pyStrip s ≠ "" then some (pyStrip s) else none
  | some (JValue.obj fs) =>
    match fs.lookup "message" with
    | some (JValue.str nested) => if pyStrip nested ≠ "" then some (pyStrip nested) else none
    | _ => none
  | _ => none

/-- parse_message(response_body): "" on empty body; the stripped raw text if
json.loads fails or yields a non-dict; else probe "message", "error",
"detail" in order, falling back to the stripped raw text. -/
def parse_message (d : Decoder) (response_body : String) : String :=
  if response_body = "" then ""
  else
    match d response_body with
    | Except.error _ => pyStrip response_body
    | Except.ok (JValue.obj fs) =>
      match probe_value (fs.lookup "message") with
      | some r => r
      | none =>
        match probe_value (fs.lookup "error") with
        | some r => r
        | none =>
          match probe_value (fs.lookup "detail") with
          | some r => r
          | none => pyStrip response_body
    | Except.ok _ => pyStrip response_body

/-- payload = map_lookup(approval, "payload", "Payload") or \x7b\x7d: a falsy
payload value (None, False, 0, "", [], empty dict) is replaced by the empty
dict before the isinstance(payload, dict) check. -/
def payload_or_default (afs : List (String × JValue)) : JValue :=
  match lookupFirstKey afs ["payload", "Payload"] with
  | some v => if pyTruthy v then v else JValue.obj []
  | none => JValue.obj []

/-- Lines 100-128 of resend/run.py: the request body dict assembled in
insertion order, with the optional fields appended only when present. -/
def mkBodyFields (from_value : String) (to_values : List String) (subject text html : String)
    (cc_values bcc_values : List String) (payloadFields : List (String × JValue)) :
    List (String × JValue) :=
  [("from", JValue.str from_value),
   ("to", JValue.arr (to_values.map JValue.str)),
   ("subject", JValue.str subject)]
  ++ (if text ≠ "" then [("text", JValue.str text)] else [])
  ++ (if html ≠ "" then [("html", JValue.str html)] else [])
  ++ (if cc_values.isEmpty then [] else [("cc", JValue.arr (cc_values.map JValue.str))])
  ++ (if bcc_values.isEmpty then [] else [("bcc", JValue.arr (bcc_values.map JValue.str))])
  ++ (match payloadFields.lookup "reply_to" with
      | some (JValue.str s) =>
        if pyStrip s ≠ "" then [("reply_to", JValue.str (pyStrip s))] else []
      | some (JValue.arr items) =>
        let normalized := normalize_recipients (some (JValue.arr items))
        if normalized.isEmpty then [] else [("reply_to", JValue.arr (normalized.map JValue.str))]
      | _ => [])
  ++ (match payloadFields.lookup "tags" with
      | some (JValue.arr items) => [("tags", JValue.arr items)]
      | _ => [])
  ++ (match payloadFields.lookup "headers" with
      | some (JValue.obj hs) => [("headers", JValue.obj hs)]
      | _ => [])

/-- Everything main builds before the HTTP call: endpoint, request body (in
insertion order), serialized body, headers, configuration, and the to list
that the success message re-uses after dispatch. -/
structure Prepared where
  endpoint : String
  bodyFields : List (String × JValue)
  encodedBody : String
  reqHeaders : List (String × String)
  apiKey : String
  timeoutStr : String
  to_values : List String

/-- Lines 58-148 of resend/run.py: everything main does before
urllib.request.urlopen, ending in either an early exit or a Prepared
request.  The float() parse of RESEND_TIMEOUT_SEC is kept as the raw
string (it only parameterizes the HTTP call; a malformed override raises
ValueError in the source before any network use). -/
def build (raw : String) (d : Decoder) (env : Env) : Except Halt Prepared :=
  if pyStrip raw = "" then Except.error (Halt.failure "resend plugin expected request JSON on stdin")
  else
    match d raw with
    | Except.error err => Except.error (Halt.failure ("resend plugin invalid stdin JSON: " ++ err))
    | Except.ok (JValue.obj requestFields) =>
      match requestFields.lookup "action_approval" with
      | some (JValue.obj approvalFields) =>
        match payload_or_default approvalFields with
        | JValue.obj payloadFields =>
          let action_target := str_or_empty (lookupFirstKey approvalFields ["action_target", "ActionTarget"])
          let action_summary := str_or_empty (lookupFirstKey approvalFields ["action_summary", "ActionSummary"])
          let to_initial := normalize_recipients (payloadFields.lookup "to")
          let to_values :=
            if to_initial.isEmpty && (action_target != "") then
              normalize_recipients (some (JValue.str action_target))
            else to_initial
          if to_values.isEmpty then
            Except.error (Halt.failure "resend_email requires payload.to or action target recipient email")
          else
            let from_value := strOr (str_or_empty (payloadFields.lookup "from"))
                                    (str_or_empty ((env "RESEND_FROM").map JValue.str))
            if from_value = "" then
              Except.error (Halt.failure "resend_email requires payload.from or RESEND_FROM env var")
            else
              let subject := strOr (strOr (str_or_empty (payloadFields.lookup "subject")) action_summary)
                                   "Message from agent-runtime"
              let text0 := str_or_empty (payloadFields.lookup "text")
              let html := str_or_empty (payloadFields.lookup "html")
              let text := if text0 = "" ∧ html = "" then action_summary else text0
              if text = "" ∧ html = "" then
                Except.error (Halt.failure "resend_email requires payload.text or payload.html (or non-empty summary)")
              else
                let cc_values := normalize_recipients (payloadFields.lookup "cc")
                let bcc_values := normalize_recipients (payloadFields.lookup "bcc")
                let bodyFields :=
                  mkBodyFields from_value to_values subject text html cc_values bcc_values payloadFields
                let api_key := str_or_empty ((env "RESEND_API_KEY").map JValue.str)
                if api_key = "" then
                  Except.error (Halt.failure "resend plugin missing RESEND_API_KEY")
                else
                  let base := strOr (str_or_empty ((env "RESEND_API_BASE").map JValue.str)) "https://api.resend.com"
                  let endpoint := pyRstrip base '/' ++ "/emails"
                  let timeoutStr := strOr (str_or_empty ((env "RESEND_TIMEOUT_SEC").map JValue.str)) "30"
                  Except.ok ⟨endpoint, bodyFields, pyJsonDumps (JValue.obj bodyFields),
                             [("Authorization", "Bearer " ++ api_key),
                              ("Content-Type", "application/json"),
                              ("User-Agent", "curl/8.7.1")],
                             api_key, timeoutStr, to_values⟩
        | _ => Except.error (Halt.failure "resend plugin payload must be a JSON object")
      | _ => Except.error (Halt.failure "resend plugin missing action_approval object")
    | Except.ok _ => Except.error (Halt.crash "AttributeError: object has no attribute get")

/-- The response body inspected by this adapter: response.read() with no
size argument reads everything (modeled at character granularity). -/
def readBody (body : String) : String := body

/-- Lines 150-178 of resend/run.py: classify the HTTP outcome and emit. -/
def dispatch (d : Decoder) (p : Prepared) (net : NetOutcome) : ProcOutcome :=
  match net with
  | NetOutcome.transportError text =>
    ProcOutcome.failure (pyStrip ("resend request failed: " ++ text))
  | NetOutcome.httpError code body =>
    let error_body := readBody body
    let message := strOr (parse_message d error_body) ("HTTP " ++ toString code)
    ProcOutcome.failure (pyStrip ("resend request failed: status=" ++ toString code ++ " message=" ++ message))
  | NetOutcome.response status body =>
    let response_text := readBody body
    if status < 200 ∨ 300 ≤ status then
      ProcOutcome.failure (pyStrip ("resend request failed: unexpected status " ++ toString status))
    else
      let email_id :=
        if response_text ≠ "" then
          match d response_text with
          | Except.ok (JValue.obj fs) => str_or_empty (fs.lookup "id")
          | _ => ""
        else ""
      let message := "resend email sent to " ++ pyJoin ", " p.to_values
                     ++ (if email_id ≠ "" then " (id: " ++ email_id ++ ")" else "")
      ProcOutcome.success (pyJsonDumps (JValue.obj [("message", JValue.str message), ("plugin", JValue.str "external_resend_email")]))

/-- main(): one full run of the email adapter. -/
def run (raw : String) (d : Decoder) (env : Env) (net : NetOutcome) : ProcOutcome :=
  match build raw d env with
  | Except.error h => emitHalt h
  | Except.ok p => dispatch d p net

end Resend

namespace Tinyfish

/-- MAX_BODY_BYTES = 128 * 1024. -/
def MAX_BODY_BYTES : Nat := 128 * 1024

/-- trim(value): None (missing key or JSON null) gives "", anything else
gives str(value).strip().  Same coercion as the email adapter's
str_or_empty. -/
def trim : Option JValue → String
  | none => ""
  | some JValue.null => ""
  | some v => pyStrip (pyStr v)

/-- compact(value): collapse whitespace runs to single spaces, then
hard-truncate to 1200 characters with a trailing ellipsis if longer. -/
def compact (value : String) : String :=
  let text := pyJoin " " (pySplitWs (pyStrip value))
  if pyLen text ≤ 1200 then text else takeChars text 1200 ++ "..."

/-- map_string(values, key): "" unless values is a dict; else trim of the
key's value. -/
def map_string (values : JValue) (key : String) : String :=
  match values with
  | JValue.obj fs => trim (fs.lookup key)
  | _ => ""

/-- nested_map_string(values, parent, child): map_string applied one level
down, tolerating a missing or non-dict parent. -/
def nested_map_string (values : JValue) (parent child : String) : String :=
  match values with
  | JValue.obj fs =>
    match fs.lookup parent with
    | some (JValue.obj nested) => map_string (JValue.obj nested) child
    | _ => ""
  | _ => ""

/-- first_non_empty(*values): the first value whose trim is non-empty,
returned trimmed; "" if none. -/
def first_non_empty : List String → String
  | [] => ""
  | v :: rest => if pyStrip v ≠ "" then pyStrip v else first_non_empty rest

/-- map_lookup(values, *keys), as in the email adapter. -/
def map_lookup (values : JValue) (keys : List String) : Option JValue :=
  match values with
  | JValue.obj fs => lookupFirstKey fs keys
  | _ => none

/-- parse_error_message(raw).  Except.error models the uncaught
AttributeError the source raises at decoded.get("error") when the body is
valid JSON whose top level is not an object. -/
def parse_error_message (d : Decoder) (raw : String) : Except String String :=
  let text := pyStrip raw
  if text = "" then Except.ok "no response body"
  else
    match d text with
    | Except.error _ => Except.ok (compact text)
    | Except.ok (JValue.obj fs) =>
      let fallback := compact (first_non_empty
        [map_string (JValue.obj fs) "message", map_string (JValue.obj fs) "detail", text])
      match fs.lookup "error" with
      | some (JValue.str s) => if pyStrip s ≠ "" then Except.ok (compact s) else Except.ok fallback
      | some (JValue.obj efs) =>
        let nested := map_string (JValue.obj efs) "message"
        if nested ≠ "" then Except.ok (compact nested) else Except.ok fallback
      | _ => Except.ok fallback
    | Except.ok _ => Except.error "AttributeError: object has no attribute get"

/-- parse_json_or_none(raw): the parsed value, or None when json.loads raises. -/
def parse_json_or_none (d : Decoder) (raw : String) : Option JValue :=
  match d raw with
  | Except.ok v => some v
  | Except.error _ => none

/-- is_async_action(action_type, payload): the fixed sentinel
case-insensitively, an explicit boolean async true, or mode == "async". -/
def is_async_action (action_type : String) (payload : List (String × JValue)) : Bool :=
  if pyLower (trim (some (JValue.str action_type))) = "tinyfish_async" then true
  else if (match payload.lookup "async" with
           | some (JValue.bool b) => b
           | _ => false) then true
  else pyLower (trim (payload.lookup "mode")) == "async"

/-- resolve_goal(summary, action_target, payload): payload.goal, else
payload.task, else summary; then the target URL appended as a labeled line
when goal and target are non-empty and the target is not already
case-insensitively substring-contained in the goal. -/
def resolve_goal (summary : String) (action_target : String) (payload : List (String × JValue)) : String :=
  let goal0 := trim (payload.lookup "goal")
  let goal1 := if goal0 = "" then trim (payload.lookup "task") else goal0
  let goal2 := if goal1 = "" then trim (some (JValue.str summary)) else goal1
  let target := trim (some (JValue.str action_target))
  let goal3 :=
    if goal2 ≠ "" ∧ target ≠ "" ∧ strContains (pyLower goal2) (pyLower target) = false then
      goal2 ++ "\nTarget URL: " ++ target
    else goal2
  pyStrip goal3

/-- resolve_url(action_target, payload, request_body): request.url, else
payload.url, else the action target. -/
def resolve_url (action_target : String) (payload : List (String × JValue)) (request_body : JValue) : String :=
  let request_url := map_string request_body "url"
  if request_url ≠ "" then request_url
  else
    let payload_url := trim (payload.lookup "url")
    if payload_url ≠ "" then payload_url
    else trim (some (JValue.str action_target))

/-- Python dict assignment d[k] = v on the association-list model: replace
in place if the key exists, else append. -/
def setKey (fs : List (String × JValue)) (k : String) (v : JValue) : List (String × JValue) :=
  match fs with
  | [] => [(k, v)]
  | (k0, v0) :: rest => if k0 = k then (k0, v) :: rest else (k0, v0) :: setKey rest k v

/-- build_request(summary, action_target, payload): start from a copy of
payload.request when it is a dict; require a goal (request.goal wins, else
resolve_goal) and a url (resolve_url), raising ValueError otherwise. -/
def build_request (summary : String) (action_target : String) (payload : List (String × JValue)) :
    Except String (List (String × JValue)) :=
  let request_body0 : List (String × JValue) :=
    match payload.lookup "request" with
    | some (JValue.obj fs) => fs
    | _ => []
  let goal := map_string (JValue.obj request_body0) "goal"
  let step1 : Except String (List (String × JValue)) :=
    if goal = "" then
      let resolved := resolve_goal summary action_target payload
      if resolved = "" then Except.error "tinyfish action requires payload.goal, payload.task, or summary"
      else Except.ok (setKey request_body0 "goal" (JValue.str resolved))
    else Except.ok request_body0
  match step1 with
  | Except.error e => Except.error e
  | Except.ok rb =>
    let url := resolve_url action_target payload (JValue.obj rb)
    if url = "" then Except.error "tinyfish action requires payload.url, payload.request.url, or action_target"
    else Except.ok (setKey rb "url" (JValue.str url))

/-- summarize_response(async_mode, raw): default phrases on an empty body,
a compacted raw dump on a non-dict body, else run_id and output probing. -/
def summarize_response (d : Decoder) (async_mode : Bool) (raw : String) : String :=
  let text := pyStrip raw
  if text = "" then (if async_mode then "tinyfish run queued" else "tinyfish run completed")
  else
    match parse_json_or_none d text with
    | some (JValue.obj fs) =>
      let decoded := JValue.obj fs
      let run_id := first_non_empty
        [map_string decoded "run_id", nested_map_string decoded "data" "run_id",
         nested_map_string decoded "run" "id"]
      if async_mode then
        if run_id ≠ "" then "tinyfish run queued with run_id " ++ run_id else "tinyfish run queued"
      else
        let output := first_non_empty
          [map_string decoded "result", map_string decoded "output", map_string decoded "message",
           nested_map_string decoded "data" "result", nested_map_string decoded "data" "output"]
        if output ≠ "" then
          (if run_id ≠ "" then "tinyfish run completed (" ++ run_id ++ "): " ++ compact output
           else "tinyfish run completed: " ++ compact output)
        else if run_id ≠ "" then "tinyfish run completed with run_id " ++ run_id
        else "tinyfish run completed"
    | _ => "tinyfish request completed: " ++ compact text

/-- payload = map_lookup(approval, "payload", "Payload") or \x7b\x7d, as in
the email adapter. -/
def payload_or_default (afs : List (String × JValue)) : JValue :=
  match lookupFirstKey afs ["payload", "Payload"] with
  | some v => if pyTruthy v then v else JValue.obj []
  | none => JValue.obj []

/-- Everything main builds before the HTTP call. -/
structure Prepared where
  request_url : String
  bodyFields : List (String × JValue)
  encodedBody : String
  reqHeaders : List (String × String)
  apiKey : String
  timeoutStr : String
  async_mode : Bool

/-- Lines 181-229 of tinyfish/run.py: everything main does before
urllib.request.urlopen.  As for the email adapter, the float() parse of
TINYFISH_TIMEOUT_SEC is carried as the raw string. -/
def build (raw : String) (d : Decoder) (env : Env) : Except Halt Prepared :=
  if pyStrip raw = "" then Except.error (Halt.failure "tinyfish plugin expected request JSON on stdin")
  else
    match d raw with
    | Except.error err => Except.error (Halt.failure ("tinyfish plugin invalid stdin JSON: " ++ err))
    | Except.ok (JValue.obj requestFields) =>
      match requestFields.lookup "action_approval" with
      | some (JValue.obj approvalFields) =>
        match payload_or_default approvalFields with
        | JValue.obj payloadFields =>
          let action_type := trim (lookupFirstKey approvalFields ["action_type", "ActionType"])
          let action_target := trim (lookupFirstKey approvalFields ["action_target", "ActionTarget"])
          let action_summary := trim (lookupFirstKey approvalFields ["action_summary", "ActionSummary"])
          let async_mode := is_async_action action_type payloadFields
          let endpoint := if async_mode then "/v1/automation/run-async" else "/v1/automation/run"
          match build_request action_summary action_target payloadFields with
          | Except.error e => Except.error (Halt.failure e)
          | Except.ok bodyFields =>
            let api_key := trim ((env "TINYFISH_API_KEY").map JValue.str)
            if api_key = "" then
              Except.error (Halt.failure "tinyfish plugin is not configured: missing api key")
            else
              let base_url := pyRstrip (strOr (trim ((env "TINYFISH_BASE_URL").map JValue.str)) "https://agent.tinyfish.ai") '/'
              let request_url := base_url ++ endpoint
              let timeoutStr := strOr (trim ((env "TINYFISH_TIMEOUT_SEC").map JValue.str)) "90"
              Except.ok ⟨request_url, bodyFields, pyJsonDumps (JValue.obj bodyFields),
                         [("X-API-Key", api_key), ("Content-Type", "application/json")],
                         api_key, timeoutStr, async_mode⟩
        | _ => Except.error (Halt.failure "tinyfish plugin payload must be a JSON object")
      | _ => Except.error (Halt.failure "tinyfish plugin missing action_approval object")
    | Except.ok _ => Except.error (Halt.crash "AttributeError: object has no attribute get")

/-- The response body inspected by this adapter: response.read(MAX_BODY_BYTES)
caps the read (modeled at character granularity). -/
def readBody (body : String) : String := takeChars body MAX_BODY_BYTES

/-- Lines 230-245 of tinyfish/run.py: classify the HTTP outcome and emit. -/
def dispatch (d : Decoder) (p : Prepared) (net : NetOutcome) : ProcOutcome :=
  match net with
  | NetOutcome.transportError text =>
    ProcOutcome.failure (pyStrip ("tinyfish request failed: " ++ text))
  | NetOutcome.httpError code body =>
    let error_body := readBody body
    match parse_error_message d error_body with
    | Except.error exc => ProcOutcome.crash exc
    | Except.ok m =>
      ProcOutcome.failure (pyStrip ("tinyfish request failed: status=" ++ toString code ++ " message=" ++ m))
  | NetOutcome.response status body =>
    let response_text := readBody body
    if status < 200 ∨ 300 ≤ status then
      match parse_error_message d response_text with
      | Except.error exc => ProcOutcome.crash exc
      | Except.ok m =>
        ProcOutcome.failure (pyStrip ("tinyfish request failed: status=" ++ toString status ++ " message=" ++ m))
    else
      ProcOutcome.success (pyJsonDumps (JValue.obj
        [("message", JValue.str (summarize_response d p.async_mode response_text)),
         ("plugin", JValue.str "tinyfish_agentic_web")]))

/-- main(): one full run of the automation adapter. -/
def run (raw : String) (d : Decoder) (env : Env) (net : NetOutcome) : ProcOutcome :=
  match build raw d env with
  | Except.error h => emitHalt h
  | Except.ok p => dispatch d p net

end Tinyfish

/-! Concrete scenario inputs used by the claim theorems below. -/

/-- Scenario A stdin document (end-to-end email success). -/
def c5raw : String :=
  "\x7b\"action_approval\":\x7b\"payload\":\x7b\"to\":\"a@x.com\",\"from\":\"b@x.com\",\"subject\":\"Hi\",\"text\":\"Hello\"\x7d\x7d\x7d"

/-- The value json.loads produces for c5raw. -/
def c5doc : JValue :=
  JValue.obj [("action_approval", JValue.obj [("payload", JValue.obj
    [("to", JValue.str "a@x.com"), ("from", JValue.str "b@x.com"),
     ("subject", JValue.str "Hi"), ("text", JValue.str "Hello")])])]

/-- Scenario A provider response body. -/
def c5respBody : String := "\x7b\"id\":\"em_123\"\x7d"

/-- json.loads oracle for scenario A: parses the stdin document and the
provider body, rejects anything else. -/
def c5dec : Decoder := fun s =>
  if s = c5raw then Except.ok c5doc
  else if s = c5respBody then Except.ok (JValue.obj [("id", JValue.str "em_123")])
  else Except.error "Expecting value: line 1 column 1 (char 0)"

/-- Environment for scenario A: only the credential is set. -/
def c5env : Env := fun k => if k = "RESEND_API_KEY" then some "re_key" else none

/-- The stdout line the adapter actually prints in scenario A (json.dumps
default separators put a space after each colon and comma). -/
def c5actual : String :=
  "\x7b\"message\": \"resend email sent to a@x.com (id: em_123)\", \"plugin\": \"external_resend_email\"\x7d"

/-- The stdout line the claim asserts for scenario A (no spaces after
separators). -/
def c5claimed : String :=
  "\x7b\"message\":\"resend email sent to a@x.com (id: em_123)\",\"plugin\":\"external_resend_email\"\x7d"

/-- json.loads oracle that parses "3" as the number 3 (valid JSON whose top
level is not an object) and rejects everything else. -/
def c1dec : Decoder := fun s =>
  if s = "3" then Except.ok (JValue.num 3) else Except.error "Expecting value: line 1 column 1 (char 0)"

/-- Scenario B stdin document: an email payload carrying from and text but
no to, in an approval with no action_target. -/
def c2raw : String :=
  "\x7b\"action_approval\":\x7b\"payload\":\x7b\"from\":\"b@x.com\",\"text\":\"hi\"\x7d\x7d\x7d"

/-- The value json.loads produces for c2raw. -/
def c2doc : JValue :=
  JValue.obj [("action_approval", JValue.obj [("payload", JValue.obj
    [("from", JValue.str "b@x.com"), ("text", JValue.str "hi")])])]

/-- json.loads oracle for scenario B. -/
def c2dec : Decoder := fun s =>
  if s = c2raw then Except.ok c2doc else Except.error "Expecting value: line 1 column 1 (char 0)"

/-- A response body one character longer than MAX_BODY_BYTES. -/
def oversizedBody : String := String.mk (List.replicate (Tinyfish.MAX_BODY_BYTES + 1) 'a')

/-- json.loads oracle that rejects everything (any non-JSON text). -/
def rejectDec : Decoder := fun _ => Except.error "Expecting value: line 1 column 1 (char 0)"

/-- json.loads oracle for the body "[1]": valid JSON whose top level is a
list, not an object. -/
def c6arrDec : Decoder := fun s =>
  if s = "[1]" then Except.ok (JValue.arr [JValue.num 1]) else Except.error "Expecting value: line 1 column 1 (char 0)"

/-- Spec-side reading of the C7 sentence: the goal is the first non-empty
of payload.goal, payload.task, the summary (the code has no further
provider-specific hint), and the target URL is appended as a labeled line
whenever present and not already substring-contained in the goal. -/
def goalSpecC7 (summary target : String) (payload : List (String × JValue)) : String :=
  let g := Tinyfish.first_non_empty
    [Tinyfish.trim (payload.lookup "goal"), Tinyfish.trim (payload.lookup "task"), summary]
  if target ≠ "" ∧ strContains (pyLower g) (pyLower target) = false then
    g ++ "\nTarget URL: " ++ target
  else g

/-- Amended goal resolution for C7: the fallback chain with the conditional
URL-append line and the final strip, used only when request.goal is empty. -/
def goalAmendedC7 (summary target : String) (payload : List (String × JValue)) : String :=
  let g := strOr (strOr (Tinyfish.trim (payload.lookup "goal")) (Tinyfish.trim (payload.lookup "task"))) (pyStrip summary)
  let tt := pyStrip target
  pyStrip (if g ≠ "" ∧ tt ≠ "" ∧ strContains (pyLower g) (pyLower tt) = false then
             g ++ "\nTarget URL: " ++ tt
           else g)

/-- A payload whose nested request object already carries a goal. -/
def c7payload : List (String × JValue) := [("request", JValue.obj [("goal", JValue.str "do x")])]

/-- A prepared email request used to instantiate dispatch-level theorems. -/
def p0resend : Resend.Prepared :=
  ⟨"https://api.resend.com/emails", [], "\x7b\x7d", [], "k", "30", ["a@x.com"]⟩

/-- A prepared automation request used to instantiate dispatch-level theorems. -/
def p0tiny : Tinyfish.Prepared :=
  ⟨"https://agent.tinyfish.ai/v1/automation/run", [], "\x7b\x7d", [], "k", "90", false⟩

/-- Stdin document whose payload is present, falsy, and not a mapping: the
empty list. -/
def c9raw : String := "\x7b\"action_approval\": \x7b\"payload\": []\x7d\x7d"

/-- The value json.loads produces for c9raw. -/
def c9doc : JValue := JValue.obj [("action_approval", JValue.obj [("payload", JValue.arr [])])]

/-- json.loads oracle for c9raw. -/
def c9dec : Decoder := fun s =>
  if s = c9raw then Except.ok c9doc else Except.error "Expecting value: line 1 column 1 (char 0)"

/-- Stdin document whose payload is present, truthy, and not a mapping: a
non-empty string. -/
def c9wraw : String := "\x7b\"action_approval\": \x7b\"payload\": \"x\"\x7d\x7d"

/-- The value json.loads produces for c9wraw. -/
def c9wdoc : JValue := JValue.obj [("action_approval", JValue.obj [("payload", JValue.str "x")])]

/-- json.loads oracle for c9wraw. -/
def c9wdec : Decoder := fun s =>
  if s = c9wraw then Except.ok c9wdoc else Except.error "Expecting value: line 1 column 1 (char 0)"

/-- Stdin document whose payload has to, from and text but no subject, in
an approval with no action_summary. -/
def c10raw : String :=
  "\x7b\"action_approval\":\x7b\"payload\":\x7b\"to\":\"a@x.com\",\"from\":\"b@x.com\",\"text\":\"hi\"\x7d\x7d\x7d"

/-- The value json.loads produces for c10raw. -/
def c10doc : JValue :=
  JValue.obj [("action_approval", JValue.obj [("payload", JValue.obj
    [("to", JValue.str "a@x.com"), ("from", JValue.str "b@x.com"), ("text", JValue.str "hi")])])]

/-- json.loads oracle for c10raw. -/
def c10dec : Decoder := fun s =>
  if s = c10raw then Except.ok c10doc else Except.error "Expecting value: line 1 column 1 (char 0)"

/-- Environment for the subject-fallback scenario. -/
def c10env : Env := fun k => if k = "RESEND_API_KEY" then some "re_key" else none

/-- The prepared request the email adapter builds from c10raw. -/
def c10p : Resend.Prepared :=
  match Resend.build c10raw c10dec c10env with
  | Except.ok p => p
  | Except.error _ => ⟨"", [], "", [], "", "", []⟩

/-! Helper lemmas shared by the claim theorems. -/

theorem pyLen_append (a b : String) : pyLen (a ++ b) = pyLen a + pyLen b := by
  cases a with
  | mk da =>
    cases b with
    | mk db =>
      show (da ++ db).length = da.length + db.length
      exact List.length_append da db

theorem strOr_ne_of_right (a b : String) (hb : b ≠ "") : strOr a b ≠ "" := by
  unfold strOr
  split <;> simp_all

theorem lookup_setKey_ne (fs : List (String × JValue)) (k k2 : String) (v : JValue) (h : k2 ≠ k) :
    (Tinyfish.setKey fs k v).lookup k2 = fs.lookup k2 := by
  have hbeq : (k2 == k) = false := by simp [h]
  induction fs with
  | nil => simp [Tinyfish.setKey, List.lookup, hbeq]
  | cons head tail ih =>
    obtain ⟨k0, v0⟩ := head
    by_cases hk : k0 = k
    · subst hk
      simp [Tinyfish.setKey, List.lookup, hbeq]
    · simp only [Tinyfish.setKey, if_neg hk, List.lookup]
      cases hbeq0 : (k2 == k0) with
      | true => simp
      | false => simp [ih]

theorem async_flag_eq (v : Option JValue) :
    (match v with | some (JValue.bool b) => b | _ => false) = true ↔ v = some (JValue.bool true) := by
  cases v with
  | none => simp
  | some j => cases j <;> simp

/-! Claim theorems. -/

/-- C1: the claim says every run ends in exactly one single-line outcome
(one stdout JSON line with exit 0, or one stderr diagnostic line with exit
1).  The code violates it: on stdin that is valid JSON whose top level is
not an object (here "3"), request.get("action_approval") raises an uncaught
AttributeError, so CPython prints a multi-line traceback to stderr and
exits 1.  Both adapters evaluate to the crash outcome at that input. -/
theorem claim_C1_nonobject_stdin_crashes :
    Resend.run "3" c1dec (fun _ => none) (NetOutcome.transportError "") =
      ProcOutcome.crash "AttributeError: object has no attribute get"
    ∧ Tinyfish.run "3" c1dec (fun _ => none) (NetOutcome.transportError "") =
      ProcOutcome.crash "AttributeError: object has no attribute get"
    ∧ exitCode (ProcOutcome.crash "AttributeError: object has no attribute get") = 1 :=
  ⟨rfl, rfl, rfl⟩

/-- C2: every input, validation, or configuration error is raised by the
build stage, before urllib.request.urlopen; the run's outcome is then the
stage's early exit with exit code 1, identical for every network oracle
(so no network I/O can have influenced it).  In particular scenario B
(payload missing "to", no action target) fails with the exact recipient
diagnostic for every environment and network. -/
theorem claim_C2_fail_before_network :
    (∀ (raw : String) (d : Decoder) (env : Env) (hl : Halt) (net : NetOutcome),
       Resend.build raw d env = Except.error hl →
       Resend.run raw d env net = emitHalt hl ∧ exitCode (emitHalt hl) = 1)
    ∧ (∀ (raw : String) (d : Decoder) (env : Env) (hl : Halt) (net : NetOutcome),
       Tinyfish.build raw d env = Except.error hl →
       Tinyfish.run raw d env net = emitHalt hl ∧ exitCode (emitHalt hl) = 1)
    ∧ (∀ (env : Env) (net : NetOutcome),
       Resend.run c2raw c2dec env net =
         ProcOutcome.failure "resend_email requires payload.to or action target recipient email") := by
  refine ⟨?_, ?_, ?_⟩
  · intro raw d env hl net hb
    refine ⟨?_, by cases hl <;> rfl⟩
    unfold Resend.run
    rw [hb]
  · intro raw d env hl net hb
    refine ⟨?_, by cases hl <;> rfl⟩
    unfold Tinyfish.run
    rw [hb]
  · intro env net
    rfl

/-- C2 witness: both implications instantiated at empty stdin. -/
theorem claim_C2_witness :
    (Resend.run "" rejectDec (fun _ => none) (NetOutcome.response 200 "") =
       emitHalt (Halt.failure "resend plugin expected request JSON on stdin")
     ∧ exitCode (emitHalt (Halt.failure "resend plugin expected request JSON on stdin")) = 1)
    ∧ (Tinyfish.run "" rejectDec (fun _ => none) (NetOutcome.response 200 "") =
       emitHalt (Halt.failure "tinyfish plugin expected request JSON on stdin")
     ∧ exitCode (emitHalt (Halt.failure "tinyfish plugin expected request JSON on stdin")) = 1) :=
  ⟨claim_C2_fail_before_network.1 "" rejectDec (fun _ => none) _ (NetOutcome.response 200 "") rfl,
   claim_C2_fail_before_network.2.1 "" rejectDec (fun _ => none) _ (NetOutcome.response 200 "") rfl⟩

/-- C3 counterexample: the claim says both adapters cap the inspected
response body at MAX_BODY_BYTES (131072), but the email adapter calls
response.read() with no size argument: on a body of 131073 characters it
inspects all 131073. -/
theorem claim_C3_counterexample :
    Tinyfish.MAX_BODY_BYTES = 131072
    ∧ pyLen (Resend.readBody oversizedBody) = Tinyfish.MAX_BODY_BYTES + 1 := by
  refine ⟨rfl, ?_⟩
  simp [Resend.readBody, oversizedBody, pyLen]

/-- C3 amended: only the automation adapter caps the read at MAX_BODY_BYTES
(on both the success and the HTTP-error path, which share readBody); the
email adapter reads the entire body uncapped. -/
theorem claim_C3_amended :
    (∀ body : String, pyLen (Tinyfish.readBody body) ≤ Tinyfish.MAX_BODY_BYTES)
    ∧ (∀ body : String, Resend.readBody body = body) := by
  refine ⟨?_, fun _ => rfl⟩
  intro body
  simp [Tinyfish.readBody, takeChars, pyLen]

/-- C5 counterexample: in scenario A the adapter does print the claimed
message and plugin fields and exit 0, but json.dumps uses Python's default
separators (", " and ": "), so the actual stdout line has a space after
each colon and comma while the claimed line has none. -/
theorem claim_C5_counterexample :
    Resend.run c5raw c5dec c5env (NetOutcome.response 201 c5respBody) = ProcOutcome.success c5actual
    ∧ c5actual ≠ c5claimed :=
  ⟨rfl, by decide⟩

/-- C5 amended: scenario A succeeds with exit code 0 and stdout exactly the
JSON object with message "resend email sent to a@x.com (id: em_123)" and
plugin "external_resend_email", serialized with json.dumps default
separators. -/
theorem claim_C5_amended :
    Resend.run c5raw c5dec c5env (NetOutcome.response 201 c5respBody) = ProcOutcome.success c5actual
    ∧ exitCode (Resend.run c5raw c5dec c5env (NetOutcome.response 201 c5respBody)) = 0 :=
  ⟨rfl, rfl⟩

/-- C4: is_async_action is true exactly when the trimmed action type
lowercases to the fixed sentinel "tinyfish_async", or the payload's "async"
entry is the explicit boolean true, or the payload's "mode" entry trims and
lowercases to "async"; false exactly when none hold. -/
theorem claim_C4_is_async_iff :
    ∀ (action_type : String) (payload : List (String × JValue)),
      Tinyfish.is_async_action action_type payload = true ↔
        (pyLower (Tinyfish.trim (some (JValue.str action_type))) = "tinyfish_async"
         ∨ payload.lookup "async" = some (JValue.bool true)
         ∨ pyLower (Tinyfish.trim (payload.lookup "mode")) = "async") := by
  intro a p
  unfold Tinyfish.is_async_action
  by_cases h1 : pyLower (Tinyfish.trim (some (JValue.str a))) = "tinyfish_async"
  · simp [h1]
  · rw [if_neg h1]
    by_cases h2 : (match p.lookup "async" with | some (JValue.bool b) => b | _ => false) = true
    · rw [if_pos h2]
      simp only [true_iff]
      exact Or.inr (Or.inl ((async_flag_eq _).mp h2))
    · rw [if_neg h2]
      have h2' : ¬ (p.lookup "async" = some (JValue.bool true)) :=
        fun hc => h2 ((async_flag_eq _).mpr hc)
      simp [h1, h2', beq_iff_eq]

/-- C6 counterexample: "a  b" is not valid JSON, and the claim says every
reducer then returns the whitespace-collapsed (and truncated) text; the
email adapter's parse_message instead returns the raw text unchanged (only
stripped), which still contains the double space. -/
theorem claim_C6_counterexample :
    Resend.parse_message rejectDec "a  b" = "a  b"
    ∧ Tinyfish.compact "a  b" = "a b"
    ∧ ("a  b" : String) ≠ "a b" :=
  ⟨rfl, rfl, by decide⟩

/-- C6 amended: on non-JSON input the email reducer returns the stripped
raw text (no collapsing, no truncation) and the automation error reducer
returns the compacted text (collapsed, capped at 1200 characters plus an
ellipsis, hence at most 1203); neither raises on non-JSON input, but the
automation error reducer does raise AttributeError on a body that is valid
JSON whose top level is not an object, such as "[1]". -/
theorem claim_C6_amended :
    (∀ (d : Decoder) (s e : String), d s = Except.error e → Resend.parse_message d s = pyStrip s)
    ∧ (∀ (d : Decoder) (s e : String), pyStrip s ≠ "" → d (pyStrip s) = Except.error e →
        Tinyfish.parse_error_message d s = Except.ok (Tinyfish.compact (pyStrip s)))
    ∧ (∀ s : String, pyLen (Tinyfish.compact s) ≤ 1203)
    ∧ Tinyfish.parse_error_message c6arrDec "[1]" =
        Except.error "AttributeError: object has no attribute get" := by
  refine ⟨?_, ?_, ?_, rfl⟩
  · intro d s e h
    unfold Resend.parse_message
    by_cases hs : s = ""
    · subst hs; rfl
    · rw [if_neg hs, h]
  · intro d s e hne h
    simp only [Tinyfish.parse_error_message]
    rw [if_neg hne, h]
  · intro s
    simp only [Tinyfish.compact]
    split
    next hl => omega
    next hl =>
      rw [pyLen_append]
      have h1 : pyLen (takeChars (pyJoin " " (pySplitWs (pyStrip s))) 1200) ≤ 1200 := by
        simp [takeChars, pyLen]
      have h2 : pyLen "..." = 3 := rfl
      omega

/-- C6 witness: both reducer implications instantiated on concrete
non-JSON inputs. -/
theorem claim_C6_witness :
    Resend.parse_message rejectDec "xy" = pyStrip "xy"
    ∧ Tinyfish.parse_error_message rejectDec " y  z " = Except.ok (Tinyfish.compact (pyStrip " y  z ")) :=
  ⟨claim_C6_amended.1 rejectDec "xy" "Expecting value: line 1 column 1 (char 0)" rfl,
   claim_C6_amended.2.1 rejectDec " y  z " "Expecting value: line 1 column 1 (char 0)" (by decide) rfl⟩

/-- C7 counterexample: the claim says the goal always resolves through the
payload.goal / payload.task / summary chain and that a present,
not-yet-contained target URL is always appended; but when the nested
payload.request already carries a goal, build_request keeps it verbatim,
skips the chain and appends nothing. -/
theorem claim_C7_counterexample :
    Tinyfish.build_request "sum" "http://t.com" c7payload =
      Except.ok [("goal", JValue.str "do x"), ("url", JValue.str "http://t.com")]
    ∧ goalSpecC7 "sum" "http://t.com" c7payload = "sum\nTarget URL: http://t.com"
    ∧ ("do x" : String) ≠ "sum\nTarget URL: http://t.com" :=
  ⟨rfl, rfl, by decide⟩

/-- C7 amended: when request.goal is empty, resolve_goal follows the chain
payload.goal, payload.task, summary (no further fallback) and appends the
trimmed target as a "Target URL:" line exactly when goal and target are
non-empty and the target is not case-insensitively contained in the goal;
when request.goal is non-empty, build_request keeps the request's own goal
entry untouched; when the chain is empty too, build_request fails with the
goal validation error. -/
theorem claim_C7_amended :
    (∀ (summary target : String) (payload : List (String × JValue)),
       Tinyfish.resolve_goal summary target payload = goalAmendedC7 summary target payload)
    ∧ (∀ (summary target : String) (payload rfs out : List (String × JValue)),
       payload.lookup "request" = some (JValue.obj rfs) →
       Tinyfish.map_string (JValue.obj rfs) "goal" ≠ "" →
       Tinyfish.build_request summary target payload = Except.ok out →
       out.lookup "goal" = rfs.lookup "goal")
    ∧ (∀ (summary target : String) (payload : List (String × JValue)),
       payload.lookup "request" = none →
       Tinyfish.resolve_goal summary target payload = "" →
       Tinyfish.build_request summary target payload =
         Except.error "tinyfish action requires payload.goal, payload.task, or summary") := by
  refine ⟨?_, ?_, ?_⟩
  · intro s t p
    rfl
  · intro s t p rfs out hreq hgoal hb
    simp only [Tinyfish.build_request, hreq, if_neg hgoal] at hb
    by_cases hurl : Tinyfish.resolve_url t p (JValue.obj rfs) = ""
    · rw [if_pos hurl] at hb
      simp at hb
    · rw [if_neg hurl] at hb
      simp only [Except.ok.injEq] at hb
      subst hb
      exact lookup_setKey_ne rfs "url" "goal" _ (by decide)
  · intro s t p hreq hres
    simp only [Tinyfish.build_request, hreq]
    have hms : Tinyfish.map_string (JValue.obj []) "goal" = "" := rfl
    rw [hms, if_pos rfl, hres, if_pos rfl]

/-- C7 witness: the amended conjuncts instantiated at concrete inputs. -/
theorem claim_C7_witness :
    Tinyfish.resolve_goal "s" "t" [] = goalAmendedC7 "s" "t" []
    ∧ ([("goal", JValue.str "do x"), ("url", JValue.str "http://t.com")] : List (String × JValue)).lookup "goal" =
        ([("goal", JValue.str "do x")] : List (String × JValue)).lookup "goal"
    ∧ Tinyfish.build_request "" "" [] =
        Except.error "tinyfish action requires payload.goal, payload.task, or summary" :=
  ⟨claim_C7_amended.1 "s" "t" [],
   claim_C7_amended.2.1 "sum" "http://t.com" c7payload [("goal", JValue.str "do x")]
     [("goal", JValue.str "do x"), ("url", JValue.str "http://t.com")] rfl (by decide) rfl,
   claim_C7_amended.2.2 "" "" [] rfl rfl⟩

/-- C8: for a body delivered by urlopen with status s, the run succeeds
exactly when 200 <= s < 300, for both adapters; in particular 199 and 300
produce the failure outcome (exit 1) and 200 and 299 the success outcome
(exit 0) at the boundary. -/
theorem claim_C8_status_boundary :
    (∀ (d : Decoder) (p : Resend.Prepared) (s : Nat) (body : String),
       (∃ m, Resend.dispatch d p (NetOutcome.response s body) = ProcOutcome.success m) ↔
         (200 ≤ s ∧ s < 300))
    ∧ (∀ (d : Decoder) (p : Tinyfish.Prepared) (s : Nat) (body : String),
       (∃ m, Tinyfish.dispatch d p (NetOutcome.response s body) = ProcOutcome.success m) ↔
         (200 ≤ s ∧ s < 300))
    ∧ Resend.dispatch rejectDec p0resend (NetOutcome.response 199 "") =
        ProcOutcome.failure "resend request failed: unexpected status 199"
    ∧ Resend.dispatch rejectDec p0resend (NetOutcome.response 300 "") =
        ProcOutcome.failure "resend request failed: unexpected status 300"
    ∧ Resend.dispatch rejectDec p0resend (NetOutcome.response 200 "") =
        ProcOutcome.success "\x7b\"message\": \"resend email sent to a@x.com\", \"plugin\": \"external_resend_email\"\x7d"
    ∧ Tinyfish.dispatch rejectDec p0tiny (NetOutcome.response 199 "") =
        ProcOutcome.failure "tinyfish request failed: status=199 message=no response body"
    ∧ Tinyfish.dispatch rejectDec p0tiny (NetOutcome.response 300 "") =
        ProcOutcome.failure "tinyfish request failed: status=300 message=no response body"
    ∧ Tinyfish.dispatch rejectDec p0tiny (NetOutcome.response 299 "") =
        ProcOutcome.success "\x7b\"message\": \"tinyfish run completed\", \"plugin\": \"tinyfish_agentic_web\"\x7d" := by
  refine ⟨?_, ?_, rfl, rfl, rfl, rfl, rfl, rfl⟩
  · intro d p s body
    constructor
    · rintro ⟨m, hm⟩
      by_contra hcon
      have h : s < 200 ∨ 300 ≤ s := by omega
      simp only [Resend.dispatch, if_pos h] at hm
      simp at hm
    · rintro ⟨h1, h2⟩
      have h : ¬ (s < 200 ∨ 300 ≤ s) := by omega
      simp only [Resend.dispatch, if_neg h]
      exact ⟨_, rfl⟩
  · intro d p s body
    constructor
    · rintro ⟨m, hm⟩
      by_contra hcon
      have h : s < 200 ∨ 300 ≤ s := by omega
      simp only [Tinyfish.dispatch, if_pos h] at hm
      rcases hpe : Tinyfish.parse_error_message d (Tinyfish.readBody body) with e | v <;>
        rw [hpe] at hm <;> simp at hm
    · rintro ⟨h1, h2⟩
      have h : ¬ (s < 200 ∨ 300 ≤ s) := by omega
      simp only [Tinyfish.dispatch, if_neg h]
      exact ⟨_, rfl⟩

/-- C9 counterexample: the claim says any present non-mapping payload is
rejected with the payload-must-be-a-JSON-object error, but the source
replaces a falsy payload value with the empty dict first ("or" with the
empty dict), so a present empty-list payload sails past the isinstance
check and fails later with a different error (the recipient validation). -/
theorem claim_C9_counterexample :
    Resend.run c9raw c9dec (fun _ => none) (NetOutcome.response 200 "") =
      ProcOutcome.failure "resend_email requires payload.to or action target recipient email"
    ∧ ("resend_email requires payload.to or action target recipient email" : String) ≠
        "resend plugin payload must be a JSON object" :=
  ⟨rfl, by decide⟩

/-- C9 amended: a payload value that is present, Python-truthy and not a
mapping produces the payload-must-be-a-JSON-object failure in both
adapters; falsy non-mapping values (null, false, 0, "", []) are replaced
by the empty mapping and processing continues. -/
theorem claim_C9_amended :
    ∀ (raw : String) (d : Decoder) (env : Env) (net : NetOutcome)
      (rfs afs : List (String × JValue)) (v : JValue),
      pyStrip raw ≠ "" →
      d raw = Except.ok (JValue.obj rfs) →
      rfs.lookup "action_approval" = some (JValue.obj afs) →
      lookupFirstKey afs ["payload", "Payload"] = some v →
      pyTruthy v = true →
      JValue.isObj v = false →
      Resend.run raw d env net = ProcOutcome.failure "resend plugin payload must be a JSON object"
      ∧ Tinyfish.run raw d env net = ProcOutcome.failure "tinyfish plugin payload must be a JSON object" := by
  intro raw d env net rfs afs v h1 h2 h3 h4 h5 h6
  constructor
  · have hb : Resend.build raw d env =
        Except.error (Halt.failure "resend plugin payload must be a JSON object") := by
      simp only [Resend.build, Resend.payload_or_default, h2, h3, h4, h5, if_neg h1, if_true]
      cases v with
      | null => simp [pyTruthy] at h5
      | obj fs => simp [JValue.isObj] at h6
      | bool b => rfl
      | num n => rfl
      | str s2 => rfl
      | arr items => rfl
    unfold Resend.run
    rw [hb]
    rfl
  · have hb : Tinyfish.build raw d env =
        Except.error (Halt.failure "tinyfish plugin payload must be a JSON object") := by
      simp only [Tinyfish.build, Tinyfish.payload_or_default, h2, h3, h4, h5, if_neg h1, if_true]
      cases v with
      | null => simp [pyTruthy] at h5
      | obj fs => simp [JValue.isObj] at h6
      | bool b => rfl
      | num n => rfl
      | str s2 => rfl
      | arr items => rfl
    unfold Tinyfish.run
    rw [hb]
    rfl

/-- C9 witness: the amended statement instantiated at a present, truthy,
non-mapping payload (the string "x"). -/
theorem claim_C9_witness :
    Resend.run c9wraw c9wdec (fun _ => none) (NetOutcome.response 200 "") =
      ProcOutcome.failure "resend plugin payload must be a JSON object"
    ∧ Tinyfish.run c9wraw c9wdec (fun _ => none) (NetOutcome.response 200 "") =
      ProcOutcome.failure "tinyfish plugin payload must be a JSON object" :=
  claim_C9_amended c9wraw c9wdec (fun _ => none) (NetOutcome.response 200 "")
    [("action_approval", JValue.obj [("payload", JValue.str "x")])]
    [("payload", JValue.str "x")] (JValue.str "x")
    (by decide) rfl rfl rfl rfl rfl

/-- C10: every request body the email adapter builds carries a non-empty
subject (the or-chain ends in the literal fallback), and when both the
payload subject and the approval summary coerce to the empty string the
subject is exactly "Message from agent-runtime". -/
theorem claim_C10_subject_fallback :
    (∀ (raw : String) (d : Decoder) (env : Env) (p : Resend.Prepared),
       Resend.build raw d env = Except.ok p →
       ∃ s, p.bodyFields.lookup "subject" = some (JValue.str s) ∧ s ≠ "")
    ∧ (∀ (raw : String) (d : Decoder) (env : Env) (p : Resend.Prepared)
         (rfs afs pfs : List (String × JValue)),
       d raw = Except.ok (JValue.obj rfs) →
       rfs.lookup "action_approval" = some (JValue.obj afs) →
       Resend.payload_or_default afs = JValue.obj pfs →
       Resend.str_or_empty (pfs.lookup "subject") = "" →
       Resend.str_or_empty (lookupFirstKey afs ["action_summary", "ActionSummary"]) = "" →
       Resend.build raw d env = Except.ok p →
       p.bodyFields.lookup "subject" = some (JValue.str "Message from agent-runtime")) := by
  constructor
  · intro raw d env p hb
    simp only [Resend.build] at hb
    repeat' split at hb
    all_goals try simp at hb
    all_goals
      subst hb
      exact ⟨_, rfl, strOr_ne_of_right _ _ (by decide)⟩
  · intro raw d env p rfs afs pfs h2 h3 h4 h5 h6 hb
    simp only [Resend.build, h2, h3, h4] at hb
    repeat' split at hb
    all_goals try simp at hb
    all_goals
      subst hb
      simp only [h5, h6]
      rfl

/-- C10 witness: both conjuncts instantiated on a concrete successful
build whose payload has no subject and whose approval has no summary. -/
theorem claim_C10_witness :
    (∃ s, c10p.bodyFields.lookup "subject" = some (JValue.str s) ∧ s ≠ "")
    ∧ c10p.bodyFields.lookup "subject" = some (JValue.str "Message from agent-runtime") :=
  ⟨claim_C10_subject_fallback.1 c10raw c10dec c10env c10p rfl,
   claim_C10_subject_fallback.2 c10raw c10dec c10env c10p
     [("action_approval", JValue.obj [("payload", JValue.obj
        [("to", JValue.str "a@x.com"), ("from", JValue.str "b@x.com"), ("text", JValue.str "hi")])])]
     [("payload", JValue.obj
        [("to", JValue.str "a@x.com"), ("from", JValue.str "b@x.com"), ("text", JValue.str "hi")])]
     [("to", JValue.str "a@x.com"), ("from", JValue.str "b@x.com"), ("text", JValue.str "hi")]
     rfl rfl rfl rfl rfl rfl⟩

/-- C3 witness: the amended statement instantiated on an oversized body and
a small body. -/
theorem claim_C3_witness :
    pyLen (Tinyfish.readBody oversizedBody) ≤ Tinyfish.MAX_BODY_BYTES
    ∧ Resend.readBody "abc" = "abc" :=
  ⟨claim_C3_amended.1 oversizedBody, claim_C3_amended.2 "abc"⟩

/-- C4 witness: the characterization instantiated at a payload where only
the mode trigger holds. -/
theorem claim_C4_witness :
    Tinyfish.is_async_action "run" [("mode", JValue.str "ASYNC")] = true ↔
      (pyLower (Tinyfish.trim (some (JValue.str "run"))) = "tinyfish_async"
       ∨ ([("mode", JValue.str "ASYNC")] : List (String × JValue)).lookup "async" = some (JValue.bool true)
       ∨ pyLower (Tinyfish.trim (([("mode", JValue.str "ASYNC")] : List (String × JValue)).lookup "mode")) = "async") :=
  claim_C4_is_async_iff "run" [("mode", JValue.str "ASYNC")]

/-- C8 witness: the success classification instantiated at status 250. -/
theorem claim_C8_witness :
    (∃ m, Resend.dispatch rejectDec p0resend (NetOutcome.response 250 "") = ProcOutcome.success m) ↔
      (200 ≤ 250 ∧ 250 < 300) :=
  claim_C8_status_boundary.1 rejectDec p0resend 250 ""
